import Mathlib

/-!
Verification of the frame-in-flight / swapchain subsystem of this repository.

The repository contains two draft iterations of the same subsystem:
the `dieselvk` draft (`CoreRenderInstance` in instance.go, `CoreSwapchain`
in swapchain.go) and the `asche` draft (`context` / `platform`).  Each
relevant function is embedded shallowly below, with Vulkan driver calls
modelled as events in an operation trace and driver answers supplied by an
explicit environment.  Go slice indexing is total here: an out-of-range
index yields `none` (the Go original panics there).
-/

/-- Vulkan result codes that the embedded code branches on.
`errorOther` stands for any result outside the named ones. -/
inductive VkResult where
  | success
  | suboptimal
  | errorOutOfDate
  | errorDeviceLost
  | errorOther
deriving DecidableEq, Repr

/-- State of a `CoreRenderInstance` (instance.go), restricted to the fields
read or written by `Render`: the three per-frame synchronization arrays,
the per-frame command buffers, the current buffer index and the swapchain
buffering depth.  Handles are modelled as natural numbers. -/
structure RenderState where
  fence_swapchain : List Nat
  sem_swapchain_image_acquired : List Nat
  sem_renderpasses_complete : List Nat
  commands : List Nat
  current_buffer : Nat
  depth : Nat
deriving DecidableEq, Repr

/-- Driver answers for one `Render` tick: the result of
`vk.AcquireNextImage`, the result of `vk.QueueSubmit`, and the image index
written by the acquire call. -/
structure DriverEnv where
  acquireRes : VkResult
  submitRes : VkResult
  acquiredImage : Nat
deriving DecidableEq, Repr

/-- Events emitted by one `Render` tick, in program order:
`waitFence`/`resetFence` are `vk.WaitForFences`/`vk.ResetFences` on the
slot's fence, `record` is `SetupCommand` on the slot's command buffer,
`acquire` is `vk.AcquireNextImage` with the slot's acquire semaphore,
`resize` is `core.Resize()`, `fatal` is the `Fatal` exit path,
`submit` is `vk.QueueSubmit` (slot, wait semaphore, signal semaphore,
fence) and `present` is `vk.QueuePresent` (wait semaphore, image index). -/
inductive RenderEv where
  | waitFence (f : Nat)
  | resetFence (f : Nat)
  | record (buf : Nat)
  | acquire (sem : Nat)
  | resize
  | fatal
  | submit (buf : Nat) (waitSem : Nat) (signalSem : Nat) (fence : Nat)
  | present (waitSem : Nat) (image : Nat)
deriving DecidableEq, Repr

/-- Shallow embedding of `CoreRenderInstance.Render` (instance.go lines
225-300).  Returns the emitted event trace and the updated state, or
`none` where the Go code would panic on an out-of-range slice index. -/
def render (env : DriverEnv) (s : RenderState) : Option (List RenderEv × RenderState) :=
  match s.fence_swapchain[s.current_buffer]? with
  | none => none
  | some fence =>
    match s.commands[s.current_buffer]? with
    | none => none
    | some _cmd =>
      match s.sem_swapchain_image_acquired[s.current_buffer]? with
      | none => none
      | some acqSem =>
        let pre := [RenderEv.waitFence fence, RenderEv.resetFence fence,
                    RenderEv.record s.current_buffer, RenderEv.acquire acqSem]
        if env.acquireRes = VkResult.errorOutOfDate ∨ env.acquireRes = VkResult.suboptimal then
          some (pre ++ [RenderEv.resize], s)
        else if env.acquireRes = VkResult.errorDeviceLost then
          some (pre ++ [RenderEv.fatal], s)
        else
          match s.sem_renderpasses_complete[s.current_buffer]? with
          | none => none
          | some sigSem =>
            match s.fence_swapchain[s.current_buffer]? with
            | none => none
            | some fence2 =>
              let withSubmit := pre ++
                [RenderEv.submit s.current_buffer acqSem sigSem fence2]
              if env.submitRes = VkResult.errorDeviceLost then
                some (withSubmit ++ [RenderEv.fatal], s)
              else if env.submitRes = VkResult.errorOutOfDate ∨
                  env.submitRes = VkResult.suboptimal then
                some (withSubmit ++ [RenderEv.resize], s)
              else
                some (withSubmit ++ [RenderEv.present sigSem env.acquiredImage],
                      { s with current_buffer := (s.current_buffer + 1) % s.depth })

/-- Recognizer for `submit` events. -/
def isSubmit : RenderEv → Bool
  | RenderEv.submit _ _ _ _ => true
  | _ => false

/-- Recognizer for `present` events. -/
def isPresent : RenderEv → Bool
  | RenderEv.present _ _ => true
  | _ => false

/-- Recognizer for `resize` events. -/
def isResize : RenderEv → Bool
  | RenderEv.resize => true
  | _ => false

/-- Recognizer for `acquire` events. -/
def isAcquire : RenderEv → Bool
  | RenderEv.acquire _ => true
  | _ => false

/-- Number of `vk.QueueSubmit` calls in a trace. -/
def countSubmits (tr : List RenderEv) : Nat := tr.countP isSubmit

/-- Number of `vk.QueuePresent` calls in a trace. -/
def countPresents (tr : List RenderEv) : Nat := tr.countP isPresent

/-- Number of `core.Resize()` (swapchain rebuild) calls in a trace. -/
def countResizes (tr : List RenderEv) : Nat := tr.countP isResize

/-- Number of `vk.AcquireNextImage` calls in a trace. -/
def countAcquires (tr : List RenderEv) : Nat := tr.countP isAcquire

/-- Drive `Render` for `n` ticks against a fixed driver environment,
collecting for every tick the slot index used and the emitted trace. -/
def renderRun (env : DriverEnv) : Nat → RenderState →
    Option (List (Nat × List RenderEv) × RenderState)
  | 0, s => some ([], s)
  | n + 1, s =>
    match render env s with
    | none => none
    | some (tr, s1) =>
      match renderRun env n s1 with
      | none => none
      | some (rest, s2) => some ((s.current_buffer, tr) :: rest, s2)

/-- Total number of submissions over a run. -/
def runSubmits (run : List (Nat × List RenderEv)) : Nat :=
  (run.map (fun t => countSubmits t.2)).sum

/-- Total number of presents over a run. -/
def runPresents (run : List (Nat × List RenderEv)) : Nat :=
  (run.map (fun t => countPresents t.2)).sum

/-- Slot index sequence of a run. -/
def runSlots (run : List (Nat × List RenderEv)) : List Nat := run.map (fun t => t.1)

/-!
The `asche` draft: `context.AcquireNextImage` / `context.PresentImage`
(the file whose recovered Go source sits behind test/shaders/vertex.vert).
-/

/-- State of an `asche` `context`, restricted to the fields read or written
by `AcquireNextImage` and `PresentImage`: the frame index and lag, the
three per-frame semaphore arrays, and the per-image command buffers of
`swapchainImageResources`. -/
structure CtxState where
  frameIndex : Nat
  frameLag : Nat
  imageAcquiredSemaphores : List Nat
  drawCompleteSemaphores : List Nat
  imageOwnershipSemaphores : List Nat
  resourceCmds : List Nat
  resourceOwnershipCmds : List Nat
deriving DecidableEq, Repr

/-- Events emitted by the `context` methods: `acquireImage` is
`vk.AcquireNextImage` with the per-frame acquire semaphore, `rebuild` is
the `prepareSwapchain` + `prepare(true)` pair run on `ErrorOutOfDate`,
`submit` is the graphics-queue `vk.QueueSubmit` (command buffer, wait
semaphore, signal semaphore; the fence argument is `nullFence`),
`submitOwnership` is the separate-present-queue ownership submit, and
`present` is `vk.QueuePresent`. -/
inductive CtxEv where
  | acquireImage (sem : Nat)
  | rebuild
  | submit (cmd : Nat) (waitSem : Nat) (signalSem : Nat)
  | submitOwnership (cmd : Nat) (waitSem : Nat) (signalSem : Nat)
  | present (waitSem : Nat) (image : Nat)
deriving DecidableEq, Repr

/-- Shallow embedding of `context.AcquireNextImage`.  `res` is the driver's
answer to `vk.AcquireNextImage` and `acquiredIdx` the image index it wrote.
Returns the trace, the updated state, the returned image index and the
returned `outdated` flag; `none` where the Go code panics (recovered into
a non-nil `err` by `checkErr`) or indexes out of range. -/
def contextAcquire (hasSepQueue : Bool) (res : VkResult) (acquiredIdx : Nat)
    (c : CtxState) : Option (List CtxEv × CtxState × Nat × Bool) :=
  match c.imageAcquiredSemaphores[c.frameIndex]? with
  | none => none
  | some acqSem =>
    match res with
    | VkResult.errorOutOfDate =>
      let c1 := { c with frameIndex := (c.frameIndex + 1) % c.frameLag }
      some ([CtxEv.acquireImage acqSem, CtxEv.rebuild], c1, acquiredIdx, true)
    | VkResult.suboptimal | VkResult.success =>
      match c.drawCompleteSemaphores[c.frameIndex]? with
      | none => none
      | some sigSem =>
        match c.resourceCmds[acquiredIdx]? with
        | none => none
        | some cmd =>
          let tr := [CtxEv.acquireImage acqSem, CtxEv.submit cmd acqSem sigSem]
          if hasSepQueue then
            match c.resourceOwnershipCmds[acquiredIdx]?,
                c.imageOwnershipSemaphores[c.frameIndex]? with
            | some ocmd, some ownSem =>
              some (tr ++ [CtxEv.submitOwnership ocmd acqSem ownSem], c, acquiredIdx, false)
            | _, _ => none
          else
            some (tr, c, acquiredIdx, false)
    | _ => none

/-- Shallow embedding of `context.PresentImage`: presents waiting on the
per-frame draw-complete (or image-ownership) semaphore, then always
advances `frameIndex` by one modulo `frameLag`.  Returns the trace, the
updated state and the `outdated` flag; `none` on a result the code turns
into a non-nil error. -/
def contextPresentImage (hasSepQueue : Bool) (res : VkResult) (imageIdx : Nat)
    (c : CtxState) : Option (List CtxEv × CtxState × Bool) :=
  match (if hasSepQueue then c.imageOwnershipSemaphores else
      c.drawCompleteSemaphores)[c.frameIndex]? with
  | none => none
  | some sem =>
    let c1 := { c with frameIndex := (c.frameIndex + 1) % c.frameLag }
    match res with
    | VkResult.errorOutOfDate => some ([CtxEv.present sem imageIdx], c1, true)
    | VkResult.suboptimal | VkResult.success =>
      some ([CtxEv.present sem imageIdx], c1, false)
    | _ => none

/-- Recognizer for context `rebuild` events. -/
def isCtxRebuild : CtxEv → Bool
  | CtxEv.rebuild => true
  | _ => false

/-- Recognizer for context graphics submits. -/
def isCtxSubmit : CtxEv → Bool
  | CtxEv.submit _ _ _ => true
  | _ => false

/-- Recognizer for context acquire calls. -/
def isCtxAcquire : CtxEv → Bool
  | CtxEv.acquireImage _ => true
  | _ => false

/-- Number of rebuilds in a context trace. -/
def ctxRebuilds (tr : List CtxEv) : Nat := tr.countP isCtxRebuild

/-- Number of graphics submits in a context trace. -/
def ctxSubmits (tr : List CtxEv) : Nat := tr.countP isCtxSubmit

/-- Number of acquire calls in a context trace. -/
def ctxAcquires (tr : List CtxEv) : Nat := tr.countP isCtxAcquire

/-!
Surface format selection, extent selection, image-count clamping and the
swapchain creation call, from `context.prepareSwapchain` (asche) and
`NewCoreSwapchain` (dieselvk, swapchain.go).
-/

/-- The Vulkan pixel formats this code mentions, plus a catch-all. -/
inductive VkFormat where
  | undefined
  | b8g8r8a8Unorm
  | r8g8b8a8Unorm
  | a8b8g8r8SrgbPack32
  | otherFormat (n : Nat)
deriving DecidableEq, Repr

/-- A `vk.SurfaceFormat`: pixel format plus color space. -/
structure SurfaceFormat where
  format : VkFormat
  colorSpace : Nat
deriving DecidableEq, Repr

/-- Format selection of `context.prepareSwapchain`: with exactly one
reported format, an `Undefined` entry has its `Format` field replaced by
the requested `dimensions.Format`; with none the code panics; otherwise
the first reported format is taken. -/
def selectSwapchainFormat (formats : List SurfaceFormat) (dimFormat : VkFormat) :
    Option SurfaceFormat :=
  match formats with
  | [] => none
  | [f] =>
    if f.format = VkFormat.undefined then some { f with format := dimFormat } else some f
  | f :: _ :: _ => some f

/-- Format selection of `NewCoreSwapchain` (swapchain.go): with at least
one reported format, an `Undefined` first entry has its `Format` field
replaced by the hardcoded `vk.FormatA8b8g8r8SrgbPack32`; otherwise the
first entry is taken; with none the code calls `Fatal`. -/
def coreSelectFormat (formats : List SurfaceFormat) : Option SurfaceFormat :=
  match formats with
  | [] => none
  | f :: _ =>
    if f.format = VkFormat.undefined then
      some { f with format := VkFormat.a8b8g8r8SrgbPack32 }
    else some f

/-- A `vk.Extent2D`. -/
structure Extent2D where
  width : Nat
  height : Nat
deriving DecidableEq, Repr

/-- `vk.MaxUint32`, the indeterminate-extent sentinel. -/
def maxUint32 : Nat := 4294967295

/-- `SwapchainDimensions`: requested logical size and pixel format. -/
structure SwapchainDimensions where
  width : Nat
  height : Nat
  format : VkFormat
deriving DecidableEq, Repr

/-- Extent selection of `context.prepareSwapchain`: when the surface
reports `CurrentExtent.Width == vk.MaxUint32` fall back to the requested
logical dimensions, else take the surface extent. -/
def chooseSwapchainSize (currentExtent : Extent2D) (dims : SwapchainDimensions) :
    Extent2D :=
  if currentExtent.width = maxUint32 then
    { width := dims.width, height := dims.height }
  else currentExtent

/-- Outcome of the extent selection in `NewCoreSwapchain` (swapchain.go
lines 71-78): the sentinel width is treated as a fatal error, any other
surface extent is used as reported. -/
inductive CoreExtentChoice where
  | useSurface (e : Extent2D)
  | fatalInvalidWidth
deriving DecidableEq, Repr

/-- Extent selection of `NewCoreSwapchain`: `Fatal` on the
`vk.MaxUint32` sentinel, otherwise the surface extent. -/
def coreChooseExtent (currentExtent : Extent2D) : CoreExtentChoice :=
  if currentExtent.width = maxUint32 then CoreExtentChoice.fatalInvalidWidth
  else CoreExtentChoice.useSurface currentExtent

/-- `vk.SurfaceCapabilities`, restricted to the fields the code reads. -/
structure SurfaceCaps where
  currentExtent : Extent2D
  minImageCount : Nat
  maxImageCount : Nat
  supportedTransforms : Nat
  currentTransform : Nat
  supportedCompositeAlpha : Nat
deriving DecidableEq, Repr

/-- `vk.SurfaceTransformIdentityBit`. -/
def surfaceTransformIdentityBit : Nat := 1

/-- `vk.CompositeAlphaOpaqueBit`. -/
def compositeAlphaOpaqueBit : Nat := 1

/-- The fixed preference order of composite-alpha modes tried by the
code: opaque, pre-multiplied, post-multiplied, inherit. -/
def compositeAlphaFlagsOrder : List Nat := [1, 2, 4, 8]

/-- The composite-alpha loop: starts at opaque and takes the first
supported flag in the fixed order. -/
def chooseCompositeAlpha (supported : Nat) : Nat :=
  match compositeAlphaFlagsOrder.find? (fun f => (supported &&& f) != 0) with
  | some f => f
  | none => compositeAlphaOpaqueBit

/-- Pre-transform selection: identity if supported, else the surface's
current transform. -/
def choosePreTransform (caps : SurfaceCaps) : Nat :=
  if caps.supportedTransforms &&& surfaceTransformIdentityBit ≠ 0 then
    surfaceTransformIdentityBit
  else caps.currentTransform

/-- Desired image count of `context.prepareSwapchain`:
`MinImageCount + 1`, settled down to `MaxImageCount` when that is nonzero
and exceeded. -/
def desiredImageCount (caps : SurfaceCaps) : Nat :=
  let desired := caps.minImageCount + 1
  if 0 < caps.maxImageCount ∧ caps.maxImageCount < desired then caps.maxImageCount
  else desired

/-- The arguments of the `vk.CreateSwapchain` call the code builds. -/
structure SwapchainCreateInfo where
  minImageCount : Nat
  imageFormat : VkFormat
  imageColorSpace : Nat
  imageExtent : Extent2D
  preTransform : Nat
  compositeAlpha : Nat
  oldSwapchain : Nat
deriving DecidableEq, Repr

/-- `vk.NullSwapchain`. -/
def nullSwapchain : Nat := 0

/-- Result of `context.prepareSwapchain`: the create call that was issued,
the swapchain handles destroyed (in order, after the create call), the
context's new swapchain handle and the stored dimensions. -/
structure PrepareResult where
  createInfo : SwapchainCreateInfo
  destroyed : List Nat
  swapchain : Nat
  dimensions : SwapchainDimensions
deriving DecidableEq, Repr

/-- Shallow embedding of `context.prepareSwapchain` (recovered Go source,
lines 315-444 of the concatenated file).  `oldSwapchain` is the context's
current swapchain handle (`c.swapchain`), `newHandle` the handle a
successful `vk.CreateSwapchain` writes.  `none` models the panic on an
empty format list.  There is no zero-extent check anywhere: the create
call is issued with whatever extent was chosen. -/
def prepareSwapchain (caps : SurfaceCaps) (formats : List SurfaceFormat)
    (dims : SwapchainDimensions) (oldSwapchain newHandle : Nat) :
    Option PrepareResult :=
  match selectSwapchainFormat formats dims.format with
  | none => none
  | some format =>
    let swapchainSize := chooseSwapchainSize caps.currentExtent dims
    let info : SwapchainCreateInfo :=
      { minImageCount := desiredImageCount caps
        imageFormat := format.format
        imageColorSpace := format.colorSpace
        imageExtent := swapchainSize
        preTransform := choosePreTransform caps
        compositeAlpha := chooseCompositeAlpha caps.supportedCompositeAlpha
        oldSwapchain := oldSwapchain }
    let destroyed := if oldSwapchain ≠ nullSwapchain then [oldSwapchain] else []
    some { createInfo := info, destroyed := destroyed, swapchain := newHandle,
           dimensions := { width := swapchainSize.width,
                           height := swapchainSize.height,
                           format := format.format } }

/-- Result of the swapchain-creation section of `NewCoreSwapchain`. -/
structure CoreCreateResult where
  oldSwapchainArg : Nat
  destroyed : List Nat
  finalSwapchain : Nat
deriving DecidableEq, Repr

/-- Pointer-level embedding of the swapchain creation section of
`NewCoreSwapchain` (swapchain.go lines 134-164).  The Go local variable
`swapchain` is one mutable cell (index 0 of a one-cell store);
`core.swapchain` and `core.old_swapchain` are pointers into that store.
`newHandle` is the handle a successful `vk.CreateSwapchain` writes through
`&swapchain`. -/
def newCoreSwapchainCreate (newHandle : Nat) : CoreCreateResult :=
  -- var swapchain vk.Swapchain  (zero-valued cell)
  let store0 : List Nat := [nullSwapchain]
  -- core.swapchain = &swapchain
  let swapchainPtr : Nat := 0
  -- core.old_swapchain = core.swapchain  (the same pointer)
  let oldSwapchainPtr : Nat := swapchainPtr
  -- OldSwapchain: *core.old_swapchain, read while building the create info
  let oldArg := store0.getD oldSwapchainPtr nullSwapchain
  -- vk.CreateSwapchain(..., &swapchain) writes the new handle into the cell
  let store1 := store0.set swapchainPtr newHandle
  -- if *core.old_swapchain != vk.NullSwapchain, DestroySwapchain(*core.old_swapchain)
  let oldVal := store1.getD oldSwapchainPtr nullSwapchain
  let destroyed := if oldVal ≠ nullSwapchain then [oldVal] else []
  -- core.swapchain = &swapchain
  { oldSwapchainArg := oldArg, destroyed := destroyed,
    finalSwapchain := store1.getD swapchainPtr nullSwapchain }

/-!
Teardown: `context.destroy` and `platform.Destroy`.
-/

/-- Resource-destruction events during teardown. -/
inductive DestroyEv where
  | deviceWaitIdle
  | destroySemaphore (h : Nat)
  | destroyFramebuffer (h : Nat)
  | destroyImageView (h : Nat)
  | freeCommandBuffer (h : Nat)
  | destroyBuffer (h : Nat)
  | freeMemory (h : Nat)
  | destroySwapchain (h : Nat)
  | destroyCommandPool (h : Nat)
  | destroySurface (h : Nat)
  | destroyDevice
  | destroyDebugCallback
  | destroyInstance
deriving DecidableEq, Repr

/-- One `SwapchainImageResources` bundle. -/
structure CtxResources where
  framebuffer : Nat
  view : Nat
  cmd : Nat
  uniformBuffer : Nat
  uniformMemory : Nat
deriving DecidableEq, Repr

/-- `SwapchainImageResources.Destroy` with the command pool passed:
destroys the framebuffer and view, frees the command buffer, destroys the
uniform buffer and frees its memory. -/
def resourceDestroyEvs (r : CtxResources) : List DestroyEv :=
  [DestroyEv.destroyFramebuffer r.framebuffer, DestroyEv.destroyImageView r.view,
   DestroyEv.freeCommandBuffer r.cmd, DestroyEv.destroyBuffer r.uniformBuffer,
   DestroyEv.freeMemory r.uniformMemory]

/-- State of an `asche` `context` as seen by `destroy`.  `platformNil`
records whether `c.platform` has already been set to nil (it is, at the
end of a completed `destroy`); a method call through a nil platform is a
nil-dereference panic. -/
structure CtxDestroyState where
  frameLag : Nat
  imageAcquiredSemaphores : List Nat
  drawCompleteSemaphores : List Nat
  imageOwnershipSemaphores : List Nat
  swapchainImageResources : List CtxResources
  swapchain : Nat
  cmdPool : Nat
  presentCmdPool : Nat
  platformNil : Bool
deriving DecidableEq, Repr

/-- One iteration of the semaphore-destruction loop of `context.destroy`:
destroys `imageAcquiredSemaphores[i]` and `drawCompleteSemaphores[i]`,
then calls `c.platform.HasSeparatePresentQueue()` (a nil-dereference when
the platform is nil) and, with a separate present queue, also destroys
`imageOwnershipSemaphores[i]`. -/
def semDestroyStep (hasSep platformNil : Bool) (acq draw own : List Nat)
    (i : Nat) : Except String (List DestroyEv) :=
  match acq[i]?, draw[i]? with
  | some a, some d =>
    if platformNil then Except.error "nil platform dereference"
    else if hasSep then
      match own[i]? with
      | some o => Except.ok [DestroyEv.destroySemaphore a,
          DestroyEv.destroySemaphore d, DestroyEv.destroySemaphore o]
      | none => Except.error "index out of range"
    else Except.ok [DestroyEv.destroySemaphore a, DestroyEv.destroySemaphore d]
  | _, _ => Except.error "index out of range"

/-- The semaphore-destruction loop, iterating `i = start, start+1, ...`
for `n` iterations. -/
def semDestroyGo (hasSep platformNil : Bool) (acq draw own : List Nat) :
    Nat → Nat → Except String (List DestroyEv)
  | _, 0 => Except.ok []
  | i, n + 1 =>
    match semDestroyStep hasSep platformNil acq draw own i with
    | Except.error e => Except.error e
    | Except.ok evs =>
      match semDestroyGo hasSep platformNil acq draw own (i + 1) n with
      | Except.error e => Except.error e
      | Except.ok rest => Except.ok (evs ++ rest)

/-- Shallow embedding of `context.destroy` (recovered Go source, lines
120-149): run the cleanup callback (none installed here), destroy the
per-frame semaphores, destroy every `SwapchainImageResources`, clear the
resource list, destroy the swapchain when non-null and null the handle,
destroy the command pool, consult the platform again for the
separate-present pool, and finally set `c.platform = nil`. -/
def contextDestroy (hasSep : Bool) (c : CtxDestroyState) :
    Except String (List DestroyEv × CtxDestroyState) :=
  match semDestroyGo hasSep c.platformNil c.imageAcquiredSemaphores
      c.drawCompleteSemaphores c.imageOwnershipSemaphores 0 c.frameLag with
  | Except.error e => Except.error e
  | Except.ok semEvs =>
    let resEvs := (c.swapchainImageResources.map resourceDestroyEvs).flatten
    let swapEvs := if c.swapchain ≠ nullSwapchain
      then [DestroyEv.destroySwapchain c.swapchain] else []
    let newSwap := if c.swapchain ≠ nullSwapchain then nullSwapchain else c.swapchain
    if c.platformNil then Except.error "nil platform dereference"
    else
      let sepEvs := if hasSep then [DestroyEv.destroyCommandPool c.presentCmdPool] else []
      Except.ok (semEvs ++ resEvs ++ swapEvs ++
          [DestroyEv.destroyCommandPool c.cmdPool] ++ sepEvs,
        { c with
          swapchainImageResources := [],
          swapchain := newSwap,
          platformNil := true })

/-- `vk.NullSurface` / null debug callback. -/
def nullHandle : Nat := 0

/-- State of an `asche` `platform` as seen by `Destroy`.  `ctx` is
`p.context`, which `Destroy` sets to nil after destroying it. -/
structure PlatformState where
  deviceNonNil : Bool
  ctx : Option CtxDestroyState
  swapchain : Nat
  surface : Nat
  debugCallback : Nat
  instanceNonNil : Bool
deriving DecidableEq, Repr

/-- Shallow embedding of `platform.Destroy` (instance.go lines 676-701):
wait for device idle when the device is non-nil, call
`p.context.destroy()` (a nil-dereference when `p.context` is nil — the
destroyed context's first field access panics), set `p.context = nil`,
then destroy the guarded swapchain, surface, device, debug callback and
Vulkan instance handles, nulling each. -/
def platformDestroy (hasSep : Bool) (p : PlatformState) :
    Except String (List DestroyEv × PlatformState) :=
  let waitEvs := if p.deviceNonNil then [DestroyEv.deviceWaitIdle] else []
  match p.ctx with
  | none => Except.error "nil pointer dereference: p.context is nil"
  | some c =>
    match contextDestroy hasSep c with
    | Except.error e => Except.error e
    | Except.ok (ctxEvs, _) =>
      let swapEvs := if p.swapchain ≠ nullSwapchain
        then [DestroyEv.destroySwapchain p.swapchain] else []
      let surfEvs := if p.surface ≠ nullHandle
        then [DestroyEv.destroySurface p.surface] else []
      let devEvs := if p.deviceNonNil then [DestroyEv.destroyDevice] else []
      let dbgEvs := if p.debugCallback ≠ nullHandle
        then [DestroyEv.destroyDebugCallback] else []
      let instEvs := if p.instanceNonNil then [DestroyEv.destroyInstance] else []
      Except.ok (waitEvs ++ ctxEvs ++ swapEvs ++ surfEvs ++ devEvs ++ dbgEvs ++
          instEvs,
        { p with
          ctx := none,
          swapchain := nullSwapchain,
          surface := nullHandle,
          deviceNonNil := false,
          instanceNonNil := false })

/-- Two consecutive calls of `platform.Destroy` on the same object,
propagating the state the first call leaves behind. -/
def platformDestroyTwice (hasSep : Bool) (p : PlatformState) :
    Except String (List DestroyEv × PlatformState) :=
  match platformDestroy hasSep p with
  | Except.error e => Except.error e
  | Except.ok (_, p1) => platformDestroy hasSep p1

/-!
`CoreRenderInstance.Init` and the synchronization arrays (instance.go).
-/

/-- The zero value of a freshly allocated `CoreRenderInstance`
(`var core CoreRenderInstance` in `NewCoreRenderInstance`): every slice is
nil (empty), `current_buffer` is zero. -/
def zeroRenderState : RenderState :=
  { fence_swapchain := [], sem_swapchain_image_acquired := [],
    sem_renderpasses_complete := [], commands := [], current_buffer := 0,
    depth := 0 }

/-- Image-count clamping of `NewCoreSwapchain` (swapchain.go lines
94-102): the desired depth is settled down to `MaxImageCount` when that is
nonzero and exceeded, else raised to `MinImageCount` when below it. -/
def coreClampDepth (desired minCount maxCount : Nat) : Nat :=
  if 0 < maxCount ∧ maxCount < desired then maxCount
  else if desired < minCount then minCount
  else desired

/-- The effect of `CoreRenderInstance.Init` (instance.go lines 89-223) on
the `RenderState` fields: `Init` builds the swapchain with desired depth 3
(which sets `depth` after clamping against the surface capabilities) and
allocates `commands` with one command buffer per swapchain image.  It
never assigns `fence_swapchain`, `sem_swapchain_image_acquired` or
`sem_renderpasses_complete`, so they keep their zero value. -/
def coreInit (minCount maxCount cmdBase : Nat) : RenderState :=
  let depth := coreClampDepth 3 minCount maxCount
  { zeroRenderState with
    depth := depth,
    commands := (List.range depth).map (fun i => cmdBase + i) }

/-! Concrete example states used by witnesses and counterexamples. -/

/-- A fully synchronized instance state with buffering depth 3 (what `Init`
would produce had it allocated the three synchronization arrays). -/
def exampleState3 : RenderState :=
  { fence_swapchain := [10, 11, 12], sem_swapchain_image_acquired := [20, 21, 22],
    sem_renderpasses_complete := [30, 31, 32], commands := [40, 41, 42],
    current_buffer := 0, depth := 3 }

/-- A driver that acquires and submits successfully, returning image 1. -/
def envSuccess : DriverEnv :=
  { acquireRes := VkResult.success, submitRes := VkResult.success, acquiredImage := 1 }

/-- A driver whose acquire reports `vk.ErrorOutOfDate`. -/
def envOutOfDate : DriverEnv :=
  { acquireRes := VkResult.errorOutOfDate, submitRes := VkResult.success, acquiredImage := 0 }

/-- A driver whose acquire reports `vk.Suboptimal`. -/
def envSubOptimal : DriverEnv :=
  { acquireRes := VkResult.suboptimal, submitRes := VkResult.success, acquiredImage := 0 }

/-- The trace of a successful `Render` tick on `exampleState3`. -/
def successTickTrace : List RenderEv :=
  [RenderEv.waitFence 10, RenderEv.resetFence 10, RenderEv.record 0,
   RenderEv.acquire 20, RenderEv.submit 0 20 30 10, RenderEv.present 30 1]

/-- `exampleState3` after one successful tick. -/
def stateAfterSuccess : RenderState := { exampleState3 with current_buffer := 1 }

/-- The trace of a `Render` tick whose acquire reports out-of-date or
suboptimal: the frame is dropped after an immediate `Resize`. -/
def droppedTickTrace : List RenderEv :=
  [RenderEv.waitFence 10, RenderEv.resetFence 10, RenderEv.record 0,
   RenderEv.acquire 20, RenderEv.resize]

/-- An `asche` context with frame lag 2 and three swapchain images. -/
def exampleCtx : CtxState :=
  { frameIndex := 0, frameLag := 2, imageAcquiredSemaphores := [100, 101],
    drawCompleteSemaphores := [110, 111], imageOwnershipSemaphores := [120, 121],
    resourceCmds := [130, 131, 132], resourceOwnershipCmds := [140, 141, 142] }

/-- Example surface capabilities: 640x480, image count range [2,8],
identity transform and opaque composite alpha supported. -/
def exampleCaps : SurfaceCaps :=
  { currentExtent := { width := 640, height := 480 }, minImageCount := 2,
    maxImageCount := 8, supportedTransforms := 1, currentTransform := 1,
    supportedCompositeAlpha := 9 }

/-- Example capabilities of a fully minimized window: extent (0,0). -/
def zeroExtentCaps : SurfaceCaps :=
  { currentExtent := { width := 0, height := 0 }, minImageCount := 2,
    maxImageCount := 0, supportedTransforms := 1, currentTransform := 1,
    supportedCompositeAlpha := 1 }

/-- A one-element surface format list. -/
def exampleFormats : List SurfaceFormat := [{ format := VkFormat.b8g8r8a8Unorm, colorSpace := 99 }]

/-- Requested swapchain dimensions. -/
def exampleDims : SwapchainDimensions :=
  { width := 640, height := 480, format := VkFormat.b8g8r8a8Unorm }

/-! Theorems. -/

/-- C1: for every buffering depth of at least 2, a `Render` tick that
completes waits on the slot's reuse-fence and observes it signaled, then
resets it, and only then re-records the slot's command buffer; every
`vk.QueueSubmit` of that tick signals the same fence and submits the same
slot's command buffer. -/
theorem render_fence_gates_rerecord (env : DriverEnv) (s : RenderState)
    (p : List RenderEv × RenderState) (hdepth : 2 ≤ s.depth)
    (h : render env s = some p) :
    ∃ f, s.fence_swapchain[s.current_buffer]? = some f ∧
      (∃ rest, p.1 = RenderEv.waitFence f :: RenderEv.resetFence f ::
        RenderEv.record s.current_buffer :: rest) ∧
      ∀ b w g fc, RenderEv.submit b w g fc ∈ p.1 → fc = f ∧ b = s.current_buffer := by
  obtain ⟨a, sub, img⟩ := env
  revert h
  unfold render
  cases hf : s.fence_swapchain[s.current_buffer]? with
  | none => intro h; cases h
  | some f =>
    cases hc : s.commands[s.current_buffer]? with
    | none => intro h; cases h
    | some cmd =>
      cases ha : s.sem_swapchain_image_acquired[s.current_buffer]? with
      | none => intro h; cases h
      | some acq =>
        cases hs : s.sem_renderpasses_complete[s.current_buffer]? with
        | none =>
          cases a <;> cases sub <;> intro h <;> cases h <;>
            exact ⟨f, rfl, ⟨_, rfl⟩, by intro b w g fc hm; simp_all⟩
        | some sig =>
          cases a <;> cases sub <;> intro h <;> cases h <;>
            exact ⟨f, rfl, ⟨_, rfl⟩, by intro b w g fc hm; simp_all⟩

/-- Witness for C1 at a concrete successful tick on `exampleState3`. -/
theorem render_fence_gates_rerecord_witness :
    ∃ f, exampleState3.fence_swapchain[exampleState3.current_buffer]? = some f ∧
      (∃ rest, (successTickTrace, stateAfterSuccess).1 =
        RenderEv.waitFence f :: RenderEv.resetFence f ::
        RenderEv.record exampleState3.current_buffer :: rest) ∧
      ∀ b w g fc, RenderEv.submit b w g fc ∈ (successTickTrace, stateAfterSuccess).1 →
        fc = f ∧ b = exampleState3.current_buffer :=
  render_fence_gates_rerecord envSuccess exampleState3
    (successTickTrace, stateAfterSuccess) (by decide) (by decide)

/-- C2 counterexample: on an `ErrorOutOfDate` acquire, the tick performs
exactly one acquire call — there is no retry against the new swapchain —
one rebuild, and no submission or presentation; control returns to the
caller directly. -/
theorem renderOutOfDate_retry_claim_cex :
    render envOutOfDate exampleState3 = some (droppedTickTrace, exampleState3) ∧
    countResizes droppedTickTrace = 1 ∧
    countAcquires droppedTickTrace = 1 ∧
    ¬ 2 ≤ countAcquires droppedTickTrace ∧
    countSubmits droppedTickTrace = 0 ∧
    countPresents droppedTickTrace = 0 := by decide

/-- C2 amended: an `ErrorOutOfDate` acquire triggers exactly one rebuild
and exactly one acquire call in that tick, with no submission, no
presentation and no slot advance; `context.AcquireNextImage` likewise
rebuilds exactly once and returns `outdated = true` without submitting. -/
theorem renderOutOfDate_single_rebuild_no_retry :
    (∀ env s p, env.acquireRes = VkResult.errorOutOfDate → render env s = some p →
      countResizes p.1 = 1 ∧ countAcquires p.1 = 1 ∧ countSubmits p.1 = 0 ∧
      countPresents p.1 = 0 ∧ p.2 = s) ∧
    (∀ hasSep idx c q, contextAcquire hasSep VkResult.errorOutOfDate idx c = some q →
      ctxRebuilds q.1 = 1 ∧ ctxAcquires q.1 = 1 ∧ ctxSubmits q.1 = 0 ∧
      q.2.2.2 = true) := by
  constructor
  · rintro ⟨a, sub, img⟩ s p ha h
    obtain rfl : a = VkResult.errorOutOfDate := ha
    revert h
    unfold render
    cases hf : s.fence_swapchain[s.current_buffer]? with
    | none => intro h; cases h
    | some f =>
      cases hc : s.commands[s.current_buffer]? with
      | none => intro h; cases h
      | some cmd =>
        cases hac : s.sem_swapchain_image_acquired[s.current_buffer]? with
        | none => intro h; cases h
        | some acq =>
          intro h; cases h
          simp [countResizes, countAcquires, countSubmits, countPresents,
            isResize, isAcquire, isSubmit, isPresent]
  · rintro hasSep idx c q h
    revert h
    unfold contextAcquire
    cases hal : c.imageAcquiredSemaphores[c.frameIndex]? with
    | none => intro h; cases h
    | some acq =>
      intro h; cases h
      simp [ctxRebuilds, ctxAcquires, ctxSubmits, isCtxRebuild, isCtxAcquire, isCtxSubmit]

/-- Witness for C2's amended statement at concrete inputs. -/
theorem renderOutOfDate_single_rebuild_no_retry_witness :
    (countResizes droppedTickTrace = 1 ∧ countAcquires droppedTickTrace = 1 ∧
     countSubmits droppedTickTrace = 0 ∧ countPresents droppedTickTrace = 0 ∧
     exampleState3 = exampleState3) ∧
    (ctxRebuilds [CtxEv.acquireImage 100, CtxEv.rebuild] = 1 ∧
     ctxAcquires [CtxEv.acquireImage 100, CtxEv.rebuild] = 1 ∧
     ctxSubmits [CtxEv.acquireImage 100, CtxEv.rebuild] = 0 ∧
     true = true) :=
  ⟨renderOutOfDate_single_rebuild_no_retry.1 envOutOfDate exampleState3
      (droppedTickTrace, exampleState3) rfl (by decide),
   renderOutOfDate_single_rebuild_no_retry.2 false 0 exampleCtx
      ([CtxEv.acquireImage 100, CtxEv.rebuild],
       { exampleCtx with frameIndex := 1 }, 0, true) (by decide)⟩

/-- C3 counterexample: with formats `[RGBA8, BGRA8]` and preferred format
`BGRA8`, the exact match is available at index 1 but the code selects the
first enumerated entry `RGBA8` — selection never prefers an exact match to
the preferred format. -/
theorem surfaceFormat_preferred_match_cex :
    selectSwapchainFormat
        [{ format := VkFormat.r8g8b8a8Unorm, colorSpace := 99 },
         { format := VkFormat.b8g8r8a8Unorm, colorSpace := 99 }]
        VkFormat.b8g8r8a8Unorm =
      some { format := VkFormat.r8g8b8a8Unorm, colorSpace := 99 } ∧
    ({ format := VkFormat.b8g8r8a8Unorm, colorSpace := 99 } : SurfaceFormat) ∈
        [({ format := VkFormat.r8g8b8a8Unorm, colorSpace := 99 } : SurfaceFormat),
         { format := VkFormat.b8g8r8a8Unorm, colorSpace := 99 }] ∧
    selectSwapchainFormat
        [{ format := VkFormat.r8g8b8a8Unorm, colorSpace := 99 },
         { format := VkFormat.b8g8r8a8Unorm, colorSpace := 99 }]
        VkFormat.b8g8r8a8Unorm ≠
      some { format := VkFormat.b8g8r8a8Unorm, colorSpace := 99 } := by decide

/-- C3 amended: format selection never searches for the preferred format.
`context.prepareSwapchain` replaces the `Format` field by the preferred
format only when exactly one format is reported and it is `Undefined`; in
every other non-empty case the first enumerated format is selected
unchanged.  `NewCoreSwapchain` always takes the first format, substituting
the hardcoded `A8B8G8R8SrgbPack32` (not a caller preference) when it is
`Undefined`.  The spec's two concrete examples do hold. -/
theorem surfaceFormat_selection_first_enumerated :
    (∀ f fs pref, selectSwapchainFormat (f :: fs) pref =
      some (if fs = [] ∧ f.format = VkFormat.undefined then
        { f with format := pref } else f)) ∧
    (∀ f fs, coreSelectFormat (f :: fs) =
      some (if f.format = VkFormat.undefined then
        { f with format := VkFormat.a8b8g8r8SrgbPack32 } else f)) ∧
    selectSwapchainFormat [{ format := VkFormat.undefined, colorSpace := 99 }]
        VkFormat.b8g8r8a8Unorm =
      some { format := VkFormat.b8g8r8a8Unorm, colorSpace := 99 } ∧
    (∀ pref, selectSwapchainFormat
        [{ format := VkFormat.b8g8r8a8Unorm, colorSpace := 99 },
         { format := VkFormat.r8g8b8a8Unorm, colorSpace := 99 }] pref =
      some { format := VkFormat.b8g8r8a8Unorm, colorSpace := 99 }) := by
  refine ⟨?_, ?_, by decide, fun pref => rfl⟩
  · intro f fs pref
    cases fs with
    | nil =>
      by_cases hf : f.format = VkFormat.undefined <;>
        simp [selectSwapchainFormat, hf]
    | cons g gs => simp [selectSwapchainFormat]
  · intro f fs
    by_cases hf : f.format = VkFormat.undefined <;> simp [coreSelectFormat, hf]

/-- C4: in `NewCoreSwapchain`, `core.old_swapchain` aliases the local
variable that `vk.CreateSwapchain` writes the new handle into, so after a
successful creation (handle 7) the guarded destroy call destroys the newly
created swapchain itself, while the `OldSwapchain` argument passed to the
creation call was null.  `context.prepareSwapchain`, by contrast, passes
the previous handle 5 as `OldSwapchain` and destroys exactly that handle
after the new one (7) is created. -/
theorem newCoreSwapchain_destroys_created_handle :
    (newCoreSwapchainCreate 7).oldSwapchainArg = nullSwapchain ∧
    (newCoreSwapchainCreate 7).destroyed = [7] ∧
    (newCoreSwapchainCreate 7).finalSwapchain = 7 ∧
    (prepareSwapchain exampleCaps exampleFormats exampleDims 5 7).map
        (fun r => (r.destroyed, r.swapchain, r.createInfo.oldSwapchain)) =
      some ([5], 7, 5) := by decide

/-- C5: whenever a `Render` tick presents a frame, the slot index advances
by exactly one modulo the buffering depth (and `context.PresentImage`
advances `frameIndex` the same way); driving 10 ticks at depth 3 against a
never-stale driver yields 10 submissions, 10 presents and the slot
sequence 0,1,2,0,1,2,0,1,2,0. -/
theorem slot_index_advances_mod_depth :
    (∀ env s p, render env s = some p → 0 < countPresents p.1 →
      p.2.current_buffer = (s.current_buffer + 1) % s.depth) ∧
    (∀ hasSep res idx c q, contextPresentImage hasSep res idx c = some q →
      q.2.1.frameIndex = (c.frameIndex + 1) % c.frameLag) ∧
    (renderRun envSuccess 10 exampleState3).map
        (fun r => (runSlots r.1, runSubmits r.1, runPresents r.1)) =
      some ([0, 1, 2, 0, 1, 2, 0, 1, 2, 0], 10, 10) := by
  refine ⟨?_, ?_, by decide⟩
  · rintro ⟨a, sub, img⟩ s p h hp
    revert h
    unfold render
    cases hf : s.fence_swapchain[s.current_buffer]? with
    | none => intro h; cases h
    | some f =>
      cases hc : s.commands[s.current_buffer]? with
      | none => intro h; cases h
      | some cmd =>
        cases hac : s.sem_swapchain_image_acquired[s.current_buffer]? with
        | none => intro h; cases h
        | some acq =>
          cases hs : s.sem_renderpasses_complete[s.current_buffer]? with
          | none =>
            cases a <;> cases sub <;> intro h <;> cases h <;>
              first
                | rfl
                | simp [countPresents, isPresent] at hp
          | some sig =>
            cases a <;> cases sub <;> intro h <;> cases h <;>
              first
                | rfl
                | simp [countPresents, isPresent] at hp
  · rintro hasSep res idx c q h
    revert h
    unfold contextPresentImage
    cases hl : (if hasSep then c.imageOwnershipSemaphores else
        c.drawCompleteSemaphores)[c.frameIndex]? with
    | none => intro h; cases h
    | some sem =>
      cases res <;> intro h <;> cases h <;> rfl

/-- Witness for C5 at a concrete successful tick and present. -/
theorem slot_index_advances_mod_depth_witness :
    stateAfterSuccess.current_buffer = (exampleState3.current_buffer + 1) % exampleState3.depth ∧
    ({ exampleCtx with frameIndex := 1 } : CtxState).frameIndex =
      (exampleCtx.frameIndex + 1) % exampleCtx.frameLag :=
  ⟨slot_index_advances_mod_depth.1 envSuccess exampleState3
      (successTickTrace, stateAfterSuccess) (by decide) (by decide),
   slot_index_advances_mod_depth.2.1 false VkResult.success 1 exampleCtx
      ([CtxEv.present 110 1], { exampleCtx with frameIndex := 1 }, false) (by decide)⟩

/-- C6 counterexample: a `Suboptimal` acquire in `Render` drops the frame:
the tick performs an immediate `Resize` before any submission, and no
submission or presentation happens in that tick. -/
theorem suboptimal_same_tick_claim_cex :
    render envSubOptimal exampleState3 = some (droppedTickTrace, exampleState3) ∧
    countSubmits droppedTickTrace = 0 ∧
    countPresents droppedTickTrace = 0 ∧
    countResizes droppedTickTrace = 1 := by decide

/-- C6 amended: `CoreRenderInstance.Render` treats a `Suboptimal` acquire
exactly like `ErrorOutOfDate` — immediate rebuild before submission, frame
dropped, no present, no slot advance; `context.AcquireNextImage` instead
proceeds to submission in the same tick on `Suboptimal`, but schedules no
rebuild at all and reports `outdated = false`. -/
theorem suboptimal_acquire_split_behavior :
    (∀ env s p, env.acquireRes = VkResult.suboptimal → render env s = some p →
      countSubmits p.1 = 0 ∧ countPresents p.1 = 0 ∧ countResizes p.1 = 1 ∧
      p.2 = s) ∧
    (∀ hasSep idx c q, contextAcquire hasSep VkResult.suboptimal idx c = some q →
      ctxSubmits q.1 = 1 ∧ ctxRebuilds q.1 = 0 ∧ q.2.2.2 = false) := by
  constructor
  · rintro ⟨a, sub, img⟩ s p ha h
    obtain rfl : a = VkResult.suboptimal := ha
    revert h
    unfold render
    cases hf : s.fence_swapchain[s.current_buffer]? with
    | none => intro h; cases h
    | some f =>
      cases hc : s.commands[s.current_buffer]? with
      | none => intro h; cases h
      | some cmd =>
        cases hac : s.sem_swapchain_image_acquired[s.current_buffer]? with
        | none => intro h; cases h
        | some acq =>
          intro h; cases h
          simp [countResizes, countSubmits, countPresents,
            isResize, isSubmit, isPresent]
  · rintro hasSep idx c q h
    revert h
    unfold contextAcquire
    cases hal : c.imageAcquiredSemaphores[c.frameIndex]? with
    | none => intro h; cases h
    | some acq =>
      cases hdc : c.drawCompleteSemaphores[c.frameIndex]? with
      | none => intro h; cases h
      | some sig =>
        cases hrc : c.resourceCmds[idx]? with
        | none => intro h; cases h
        | some cmd =>
          cases hasSep with
          | false =>
            intro h; cases h
            simp [ctxSubmits, ctxRebuilds, isCtxSubmit, isCtxRebuild]
          | true =>
            cases hoc : c.resourceOwnershipCmds[idx]? with
            | none => intro h; cases h
            | some ocmd =>
              cases hos : c.imageOwnershipSemaphores[c.frameIndex]? with
              | none => intro h; cases h
              | some osem =>
                intro h; cases h
                simp [ctxSubmits, ctxRebuilds, isCtxSubmit, isCtxRebuild]

/-- Witness for C6's amended statement at concrete inputs. -/
theorem suboptimal_acquire_split_behavior_witness :
    (countSubmits droppedTickTrace = 0 ∧ countPresents droppedTickTrace = 0 ∧
     countResizes droppedTickTrace = 1 ∧ exampleState3 = exampleState3) ∧
    (ctxSubmits [CtxEv.acquireImage 100, CtxEv.submit 131 100 110] = 1 ∧
     ctxRebuilds [CtxEv.acquireImage 100, CtxEv.submit 131 100 110] = 0 ∧
     false = false) :=
  ⟨suboptimal_acquire_split_behavior.1 envSubOptimal exampleState3
      (droppedTickTrace, exampleState3) rfl (by decide),
   suboptimal_acquire_split_behavior.2 false 1 exampleCtx
      ([CtxEv.acquireImage 100, CtxEv.submit 131 100 110], exampleCtx, 1, false)
      (by decide)⟩

/-- An example `SwapchainImageResources` bundle. -/
def exampleRes1 : CtxResources :=
  { framebuffer := 1, view := 2, cmd := 3, uniformBuffer := 4, uniformMemory := 5 }

/-- A second example `SwapchainImageResources` bundle. -/
def exampleRes2 : CtxResources :=
  { framebuffer := 21, view := 22, cmd := 23, uniformBuffer := 24, uniformMemory := 25 }

/-- An `asche` context ready for teardown: frame lag 2, two per-image
resource bundles, live swapchain handle 9. -/
def exampleCtxDestroy : CtxDestroyState :=
  { frameLag := 2, imageAcquiredSemaphores := [100, 101],
    drawCompleteSemaphores := [110, 111], imageOwnershipSemaphores := [120, 121],
    swapchainImageResources := [exampleRes1, exampleRes2], swapchain := 9,
    cmdPool := 8, presentCmdPool := 7, platformNil := false }

/-- An `asche` platform ready for teardown, owning `exampleCtxDestroy`. -/
def examplePlatform : PlatformState :=
  { deviceNonNil := true, ctx := some exampleCtxDestroy, swapchain := 13,
    surface := 11, debugCallback := 12, instanceNonNil := true }

/-- The destruction trace of the first `platform.Destroy` call on
`examplePlatform`. -/
def firstTeardownTrace : List DestroyEv :=
  [DestroyEv.deviceWaitIdle,
   DestroyEv.destroySemaphore 100, DestroyEv.destroySemaphore 110,
   DestroyEv.destroySemaphore 101, DestroyEv.destroySemaphore 111,
   DestroyEv.destroyFramebuffer 1, DestroyEv.destroyImageView 2,
   DestroyEv.freeCommandBuffer 3, DestroyEv.destroyBuffer 4,
   DestroyEv.freeMemory 5,
   DestroyEv.destroyFramebuffer 21, DestroyEv.destroyImageView 22,
   DestroyEv.freeCommandBuffer 23, DestroyEv.destroyBuffer 24,
   DestroyEv.freeMemory 25,
   DestroyEv.destroySwapchain 9, DestroyEv.destroyCommandPool 8,
   DestroyEv.destroySwapchain 13, DestroyEv.destroySurface 11,
   DestroyEv.destroyDevice, DestroyEv.destroyDebugCallback,
   DestroyEv.destroyInstance]

/-- `examplePlatform` after its first `Destroy` call. -/
def tornDownPlatform : PlatformState :=
  { deviceNonNil := false, ctx := none, swapchain := 0, surface := 0,
    debugCallback := 12, instanceNonNil := false }

/-- C7 counterexample: with the surface reporting extent (0,0) (fully
minimized window), driving the swapchain rebuild performs the
`vk.CreateSwapchain` call with extent (0,0) — a zero-size swapchain is
requested from the driver, and no distinct `Deferred` status exists. -/
theorem zero_extent_deferred_claim_cex :
    (prepareSwapchain zeroExtentCaps exampleFormats exampleDims nullSwapchain 7).map
        (fun r => r.createInfo.imageExtent) =
      some { width := 0, height := 0 } ∧
    (prepareSwapchain zeroExtentCaps exampleFormats exampleDims nullSwapchain 7).isSome =
      true := by decide

/-- C7 amended: a zero-area extent is not special-cased: whenever the
surface reports a current extent of width 0 (not the indeterminate
sentinel), `prepareSwapchain` issues the creation call with exactly that
zero-width extent instead of skipping it. -/
theorem zero_extent_creation_proceeds (caps : SurfaceCaps) (f : SurfaceFormat)
    (fs : List SurfaceFormat) (dims : SwapchainDimensions) (old new : Nat)
    (hw : caps.currentExtent.width = 0) :
    ∃ r, prepareSwapchain caps (f :: fs) dims old new = some r ∧
      r.createInfo.imageExtent = caps.currentExtent ∧
      r.createInfo.imageExtent.width = 0 := by
  have hmax : ¬ caps.currentExtent.width = maxUint32 := by
    rw [hw]; simp [maxUint32]
  have hsize : chooseSwapchainSize caps.currentExtent dims = caps.currentExtent := by
    simp [chooseSwapchainSize, hmax]
  obtain ⟨g, hg⟩ : ∃ g, selectSwapchainFormat (f :: fs) dims.format = some g := by
    cases fs with
    | nil =>
      by_cases hf : f.format = VkFormat.undefined <;>
        simp [selectSwapchainFormat, hf]
    | cons a l => exact ⟨f, rfl⟩
  have hp : prepareSwapchain caps (f :: fs) dims old new = some
      { createInfo :=
          { minImageCount := desiredImageCount caps,
            imageFormat := g.format, imageColorSpace := g.colorSpace,
            imageExtent := chooseSwapchainSize caps.currentExtent dims,
            preTransform := choosePreTransform caps,
            compositeAlpha := chooseCompositeAlpha caps.supportedCompositeAlpha,
            oldSwapchain := old },
        destroyed := if old ≠ nullSwapchain then [old] else [],
        swapchain := new,
        dimensions :=
          { width := (chooseSwapchainSize caps.currentExtent dims).width,
            height := (chooseSwapchainSize caps.currentExtent dims).height,
            format := g.format } } := by
    unfold prepareSwapchain
    rw [hg]
  refine ⟨_, hp, ?_, ?_⟩
  · exact hsize
  · show (chooseSwapchainSize caps.currentExtent dims).width = 0
    rw [hsize]
    exact hw

/-- Witness for C7's amended statement on a minimized window's caps. -/
theorem zero_extent_creation_proceeds_witness :
    ∃ r, prepareSwapchain zeroExtentCaps exampleFormats exampleDims nullSwapchain 7 =
        some r ∧
      r.createInfo.imageExtent = zeroExtentCaps.currentExtent ∧
      r.createInfo.imageExtent.width = 0 :=
  zero_extent_creation_proceeds zeroExtentCaps
    { format := VkFormat.b8g8r8a8Unorm, colorSpace := 99 } [] exampleDims
    nullSwapchain 7 rfl

/-- C8 counterexample: on the indeterminate-extent sentinel
(`CurrentExtent.Width == vk.MaxUint32`), `NewCoreSwapchain` takes the
`Fatal` path instead of falling back, while `context.prepareSwapchain`
does fall back to the requested 640x480. -/
theorem indeterminate_extent_no_fail_cex :
    coreChooseExtent { width := maxUint32, height := 480 } =
      CoreExtentChoice.fatalInvalidWidth ∧
    chooseSwapchainSize { width := maxUint32, height := 480 } exampleDims =
      { width := 640, height := 480 } := by decide

/-- C8 amended: `context.prepareSwapchain` falls back to the previously
requested logical dimensions on the sentinel and uses the surface extent
otherwise; `NewCoreSwapchain` instead treats the sentinel as a fatal
error and never falls back. -/
theorem indeterminate_extent_fallback_split :
    (∀ hgt dims, chooseSwapchainSize { width := maxUint32, height := hgt } dims =
      { width := dims.width, height := dims.height }) ∧
    (∀ hgt, coreChooseExtent { width := maxUint32, height := hgt } =
      CoreExtentChoice.fatalInvalidWidth) ∧
    (∀ e dims, e.width ≠ maxUint32 → chooseSwapchainSize e dims = e) := by
  refine ⟨fun hgt dims => ?_, fun hgt => ?_, fun e dims he => ?_⟩
  · simp [chooseSwapchainSize]
  · simp [coreChooseExtent]
  · simp [chooseSwapchainSize, he]

/-- Witness for C8's amended statement on an ordinary surface extent. -/
theorem indeterminate_extent_fallback_split_witness :
    chooseSwapchainSize { width := 640, height := 480 } exampleDims =
      { width := 640, height := 480 } :=
  indeterminate_extent_fallback_split.2.2 { width := 640, height := 480 }
    exampleDims (by decide)

/-- C9 counterexample: the first `platform.Destroy` on `examplePlatform`
succeeds and releases everything, but the second call fails with a nil
dereference of the already-nulled context — teardown is not idempotent. -/
theorem teardown_second_call_fails_cex :
    platformDestroy false examplePlatform =
      Except.ok (firstTeardownTrace, tornDownPlatform) ∧
    platformDestroyTwice false examplePlatform =
      Except.error "nil pointer dereference: p.context is nil" := by
  exact ⟨rfl, rfl⟩

/-- C9 amended: the first teardown releases the context's views,
framebuffers and swapchain (and the platform's guarded handles) and nulls
`p.context`; but a second `Destroy` on any platform whose context is nil
fails with a nil-pointer dereference instead of being a no-op. -/
theorem teardown_not_idempotent :
    platformDestroy false examplePlatform =
      Except.ok (firstTeardownTrace, tornDownPlatform) ∧
    DestroyEv.destroySwapchain 9 ∈ firstTeardownTrace ∧
    DestroyEv.destroyFramebuffer 1 ∈ firstTeardownTrace ∧
    DestroyEv.destroyImageView 2 ∈ firstTeardownTrace ∧
    tornDownPlatform.ctx = none ∧
    (∀ q : PlatformState, q.ctx = none →
      platformDestroy false q =
        Except.error "nil pointer dereference: p.context is nil") := by
  refine ⟨rfl, by decide, by decide, by decide, rfl, ?_⟩
  intro q hq
  unfold platformDestroy
  rw [hq]

/-- Witness for C9's amended statement on a platform with a nil context. -/
theorem teardown_not_idempotent_witness :
    platformDestroy false ({ examplePlatform with ctx := none }) =
      Except.error "nil pointer dereference: p.context is nil" :=
  teardown_not_idempotent.2.2.2.2.2 { examplePlatform with ctx := none } rfl

/-- C10: `Init` never assigns the three synchronization arrays, so every
`CoreRenderInstance` it produces has them empty; the first `Render` call
then fails at the very first step, the fence lookup at the current buffer
index, for every driver behavior. -/
theorem init_leaves_sync_arrays_empty :
    ∀ minCount maxCount cmdBase env,
      (coreInit minCount maxCount cmdBase).fence_swapchain = [] ∧
      (coreInit minCount maxCount cmdBase).sem_swapchain_image_acquired = [] ∧
      (coreInit minCount maxCount cmdBase).sem_renderpasses_complete = [] ∧
      (coreInit minCount maxCount
        cmdBase).fence_swapchain[(coreInit minCount maxCount cmdBase).current_buffer]? =
        none ∧
      render env (coreInit minCount maxCount cmdBase) = none :=
  fun minCount maxCount cmdBase env => ⟨rfl, rfl, rfl, rfl, rfl⟩
